import Mathlib

/-!
Shallow embedding of the SharePoint → Azure Blob sync engine
(`src/sharepoint_sync.py`) and of the Azure AI Search vertical
provisioning client (`src/azure_search_integrated_vectorization.py`),
together with proofs of the specified properties.

Machine integers do not occur on the verified paths; byte contents are
modelled as `List Nat`, strings as Lean `String` (ASCII semantics for the
`lower`/`isalnum` character classes used by the code).
-/

/-! ## Content store model

Azure Blob storage for one container: an association list from blob key to
stored value.  `upload_blob(..., overwrite=True)` replaces any existing
entry under the same key. -/

/-- Provenance sidecar payload uploaded at `blob_key + ".json"`
(`upload_sidecar` in `sharepoint_sync.py`). -/
structure Sidecar where
  originalUrl : String
  name : String
  lastModified : String
  size : Nat
  blobKey : String
deriving DecidableEq, Repr

/-- A stored object: either a mirrored file blob (bytes + metadata map) or a
JSON sidecar. -/
inductive BlobVal where
  | blob (data : List Nat) (metadata : List (String × String))
  | sidecar (s : Sidecar)
deriving DecidableEq, Repr

/-- The blob container contents. -/
def BlobStore := List (String × BlobVal)
deriving DecidableEq, Repr

/-- Remove every entry stored under key `k`. -/
def eraseKey (k : String) (s : BlobStore) : BlobStore :=
  s.filter (fun p => !(p.1 == k))

/-- Overwrite-upload: store `v` under key `k`, replacing any previous entry
(the `overwrite=True` semantics of `upload_blob`). -/
def insertOver (k : String) (v : BlobVal) (s : BlobStore) : BlobStore :=
  (k, v) :: eraseKey k s

/-- Look up the value stored under key `k`. -/
def lookupKey (k : String) (s : BlobStore) : Option BlobVal :=
  (s.find? (fun p => p.1 == k)).map (fun p => p.2)

/-- Number of entries stored under key `k`. -/
def countKey (k : String) (s : BlobStore) : Nat :=
  (s.filter (fun p => p.1 == k)).length

/-! ## Key derivation (`get_safe_blob_key`) -/

/-- Python `s.split(sep)` for a one-character separator, on `List Char`. -/
def splitOnChar (c : Char) : List Char → List (List Char)
  | [] => [[]]
  | x :: rest =>
    match splitOnChar c rest with
    | [] => [[]]
    | g :: gs => if x == c then [] :: g :: gs else (x :: g) :: gs

/-- Python `s.strip(c)`: remove leading and trailing occurrences of `c`. -/
def pyStrip (c : Char) (s : List Char) : List Char :=
  ((s.dropWhile (· == c)).reverse.dropWhile (· == c)).reverse

/-- Python `s.replace("//", "/")`: left-to-right non-overlapping replacement
of doubled slashes by single slashes. -/
def collapseDoubleSlashes : List Char → List Char
  | '/' :: '/' :: rest => '/' :: collapseDoubleSlashes rest
  | c :: rest => c :: collapseDoubleSlashes rest
  | [] => []

/-- `get_safe_blob_key(parent_path, file_name)`: strip the drive prefix (the
part up to the last `:`), trim `/` on both ends, join with the file name and
collapse doubled slashes. -/
def get_safe_blob_key (parent_path file_name : String) : String :=
  let pp := parent_path.toList
  let rel_path :=
    if pp.any (· == ':') then pyStrip '/' ((splitOnChar ':' pp).getLastD [])
    else pyStrip '/' pp
  if rel_path ≠ [] then
    String.mk (collapseDoubleSlashes (rel_path ++ '/' :: file_name.toList))
  else file_name

/-! ## SharePoint items and per-item mirroring -/

/-- A drive item as read from a Graph delta page (the fields
`process_sharepoint_item` and the sync loop consume).  `parentPath` and
`driveId` model `parentReference.path` / `parentReference.driveId`, which may
be absent. -/
structure SPItem where
  name : String
  id : String
  webUrl : String
  parentPath : Option String
  driveId : Option String
  eTag : String
  lastModifiedDateTime : String
  size : Nat
  isFolder : Bool
deriving DecidableEq, Repr

/-- Configuration fields of `config` read by the sync component. -/
structure SyncConfig where
  siteId : String
  driveId : String
  folderPath : String
deriving DecidableEq, Repr

/-- Environment for one mirror attempt: the bytes the download stream yields
for an item, and whether the download/upload of the item (resp. of its
sidecar) raises. -/
structure MirrorEnv where
  content : SPItem → List Nat
  uploadError : SPItem → Option String
  sidecarError : SPItem → Option String

/-- The blob key `process_sharepoint_item` derives for an item. -/
def itemBlobKey (item : SPItem) : String :=
  get_safe_blob_key (item.parentPath.getD "") item.name

/-- The lowercase-keyed blob metadata attached by `process_sharepoint_item`. -/
def itemMetadata (cfg : SyncConfig) (item : SPItem) : List (String × String) :=
  [("source_url", item.webUrl),
   ("sp_item_id", item.id),
   ("sp_drive_id", item.driveId.getD cfg.driveId),
   ("sp_etag", item.eTag),
   ("sp_mtime", item.lastModifiedDateTime),
   ("sp_file_name", item.name)]

/-- The sidecar payload built by `process_sharepoint_item`. -/
def itemSidecar (item : SPItem) (blob_key : String) : Sidecar :=
  { originalUrl := item.webUrl
    name := item.name
    lastModified := item.lastModifiedDateTime
    size := item.size
    blobKey := blob_key }

/-- `process_sharepoint_item`: skip folders; otherwise derive the blob key,
upload the blob (overwrite) with metadata and then the sidecar.  Any
exception during download/upload is caught and returned as
`(False, "Failed to process <name>: <e>")`; sidecar upload failure is
swallowed.  Returns the updated store and the `(success, message)` pair. -/
def process_sharepoint_item (cfg : SyncConfig) (env : MirrorEnv)
    (store : BlobStore) (item : SPItem) : BlobStore × Bool × String :=
  if item.isFolder then (store, true, "Skipped folder")
  else
    match env.uploadError item with
    | some e => (store, false, "Failed to process " ++ item.name ++ ": " ++ e)
    | none =>
      let blob_key := itemBlobKey item
      let store1 :=
        insertOver blob_key (.blob (env.content item) (itemMetadata cfg item)) store
      let store2 :=
        match env.sidecarError item with
        | some _ => store1
        | none => insertOver (blob_key ++ ".json") (.sidecar (itemSidecar item blob_key)) store1
      (store2, true, "Successfully processed " ++ item.name)

/-! ## The delta sync run (`sync_sharepoint_folder`) -/

/-- A Graph delta page as returned by `graph_get` (the JSON fields the sync
loop reads): the item list, `@odata.nextLink` and `@odata.deltaLink`. -/
structure DeltaPage where
  value : List SPItem
  nextLink : Option String
  deltaLink : Option String
deriving DecidableEq, Repr

/-- `tryAttempts f i n`: make up to `n` attempts `f i, f (i+1), …`; return the
first success, or the last attempt's error once the budget is exhausted
(the `tenacity` `stop_after_attempt` behavior wrapping `graph_get`). -/
def tryAttempts (f : Nat → Except String DeltaPage) : Nat → Nat → Except String DeltaPage
  | i, 0 => f i
  | i, 1 => f i
  | i, n + 2 =>
    match f i with
    | .ok p => .ok p
    | .error _ => tryAttempts f (i + 1) (n + 1)

/-- `graph_get` with its retry decorator: at most 3 attempts against the
given URL, propagating the final failure. -/
def graph_get (att : String → Nat → Except String DeltaPage) (url : String) :
    Except String DeltaPage :=
  tryAttempts (att url) 0 3

/-- Environment of one sync run: the per-attempt page-fetch outcomes, the
mirror environment, and whether writing the cursor file raises `IOError`. -/
structure SyncEnv where
  att : String → Nat → Except String DeltaPage
  mirror : MirrorEnv
  saveFails : Bool

/-- `save_delta_state`: write the cursor file; an `IOError` is caught and
only logged, leaving the file unchanged. -/
def save_delta_state (saveFails : Bool) (old newCursor : Option String) : Option String :=
  if saveFails then old else newCursor

/-- State threaded through one run of the sync loop.  `store`, `diskCursor`,
`total`, `processed` and `errors` mirror the program state; `terminalCursor`
(the `@odata.deltaLink` received, if any) and `fetchFailed` (the page-fetch
exception caught by the outer handler, if any) are observation fields that
record how the loop ended. -/
structure RunState where
  store : BlobStore
  diskCursor : Option String
  total : Nat
  processed : Nat
  errors : List String
  terminalCursor : Option String
  fetchFailed : Option String
deriving DecidableEq, Repr

/-- Number of file (non-folder) items on a page. -/
def fileCount (items : List SPItem) : Nat :=
  (items.filter (fun i => !i.isFolder)).length

/-- The inner `for` loop of `sync_sharepoint_folder`: process each file item
of the page, counting successes and accumulating failure messages. -/
def processItems (cfg : SyncConfig) (env : MirrorEnv) :
    List SPItem → RunState → RunState
  | [], st => st
  | item :: rest, st =>
    if item.isFolder then processItems cfg env rest st
    else
      match process_sharepoint_item cfg env st.store item with
      | (store, true, _) =>
        processItems cfg env rest { st with store := store, processed := st.processed + 1 }
      | (store, false, msg) =>
        processItems cfg env rest { st with store := store, errors := st.errors ++ [msg] }

/-- The `while delta_url:` loop of `sync_sharepoint_folder`, with the
surrounding `try/except` folded in: a page-fetch failure (after retries) is
caught, recorded as `"Sync failed: <e>"` in the error list, and ends the
loop; when a page carries `@odata.deltaLink` the cursor is saved and the
loop breaks.  `fuel` bounds the number of iterations (every feed used below
is finite). -/
def syncPages (cfg : SyncConfig) (env : SyncEnv) :
    Nat → Option String → RunState → RunState
  | _, none, st => st
  | 0, some _, st => st
  | fuel + 1, some url, st =>
    match graph_get env.att url with
    | .error e =>
      { st with errors := st.errors ++ ["Sync failed: " ++ e], fetchFailed := some e }
    | .ok page =>
      let st1 := { st with total := st.total + fileCount page.value }
      let st2 := processItems cfg env.mirror page.value st1
      match page.deltaLink with
      | some d =>
        { st2 with
          diskCursor := save_delta_state env.saveFails st2.diskCursor (some d)
          terminalCursor := some d }
      | none => syncPages cfg env fuel page.nextLink st2

/-- Initial request URL: the stored cursor when present and non-empty,
otherwise the full-traversal delta URL derived from the configuration. -/
def initialDeltaUrl (cfg : SyncConfig) : String :=
  "https://graph.microsoft.com/v1.0/sites/" ++ cfg.siteId ++ "/drives/" ++
    cfg.driveId ++ "/root:/" ++ cfg.folderPath ++ ":/delta"

/-- The `delta_url` the run starts from (`state.get("delta_url")` with the
falsy check on the empty string). -/
def startUrl (cfg : SyncConfig) (disk0 : Option String) : String :=
  match disk0 with
  | some u => if u == "" then initialDeltaUrl cfg else u
  | none => initialDeltaUrl cfg

/-- The summary dict returned by `sync_sharepoint_folder`. -/
structure SyncSummary where
  total_files : Nat
  processed_files : Nat
  errors : List String
  success_rate : Rat
deriving DecidableEq, Repr

/-- `sync_sharepoint_folder`: load the cursor, run the page loop, and return
the summary together with the final run state.  The function never raises:
every loop exception is downgraded into `errors`. -/
def sync_sharepoint_folder (cfg : SyncConfig) (env : SyncEnv) (fuel : Nat)
    (store0 : BlobStore) (disk0 : Option String) : SyncSummary × RunState :=
  let st0 : RunState :=
    { store := store0, diskCursor := disk0, total := 0, processed := 0,
      errors := [], terminalCursor := none, fetchFailed := none }
  let st := syncPages cfg env fuel (some (startUrl cfg disk0)) st0
  ({ total_files := st.total
     processed_files := st.processed
     errors := st.errors
     success_rate :=
       if st.total > 0 then (st.processed : Rat) / (st.total : Rat) * 100 else 0 },
   st)

/-- Keys of the mirrored file blobs (not sidecars) in a store. -/
def mirroredKeys (s : BlobStore) : List String :=
  (s.filter (fun p => match p.2 with | .blob _ _ => true | _ => false)).map (fun p => p.1)

/-! ## Concrete sync scenarios -/

/-- Sample configuration used by the concrete scenarios. -/
def cfg0 : SyncConfig :=
  { siteId := "site1", driveId := "drive1", folderPath := "Shared" }

/-- A sample file item living under `Docs` in the synced drive. -/
def mkFile (n : Nat) : SPItem :=
  { name := "f" ++ toString n ++ ".txt"
    id := "id" ++ toString n
    webUrl := "https://sp.example/f" ++ toString n
    parentPath := some "/drives/drive1/root:/Docs"
    driveId := some "drive1"
    eTag := "etag" ++ toString n
    lastModifiedDateTime := "2024-01-01T00:00:0" ++ toString n ++ "Z"
    size := n
    isFolder := false }

/-- Mirror environment in which every item downloads and uploads cleanly. -/
def mirrorOk : MirrorEnv :=
  { content := fun i => [i.size]
    uploadError := fun _ => none
    sidecarError := fun _ => none }

/-- Two-page feed: page 1 has files 1–3 and next-page cursor `X`; page 2 has
files 4–5 and terminal cursor `Y`. -/
def attTwoPages : String → Nat → Except String DeltaPage := fun url _ =>
  if url == initialDeltaUrl cfg0 then
    .ok { value := [mkFile 1, mkFile 2, mkFile 3], nextLink := some "X", deltaLink := none }
  else if url == "X" then
    .ok { value := [mkFile 4, mkFile 5], nextLink := none, deltaLink := some "Y" }
  else .error "itemNotFound"

/-- Environment of the fresh two-page scenario. -/
def envTwoPages : SyncEnv :=
  { att := attTwoPages, mirror := mirrorOk, saveFails := false }

/-- Environment in which every page-fetch attempt fails, so the 3-attempt
retry budget of `graph_get` is always exhausted. -/
def envFetchFails : SyncEnv :=
  { att := fun _ _ => .error "boom", mirror := mirrorOk, saveFails := false }

example :
    (sync_sharepoint_folder cfg0 envTwoPages 2 [] none).1.total_files = 5 := by decide
example :
    mirroredKeys (sync_sharepoint_folder cfg0 envTwoPages 2 [] none).2.store =
      ["Docs/f5.txt", "Docs/f4.txt", "Docs/f3.txt", "Docs/f2.txt", "Docs/f1.txt"] := by
  decide
example :
    (sync_sharepoint_folder cfg0 envTwoPages 2 [] none).2.diskCursor = some "Y" := by decide

/-! ## Azure AI Search provisioning client
(`azure_search_integrated_vectorization.py`) -/

/-- An HTTP request issued against the search REST API (method and the
endpoint path before the api-version query). -/
structure Req where
  method : String
  path : String
deriving DecidableEq, Repr

/-- Outcome of one HTTP call: a server response with a status code and body,
or a `requests` exception raised mid-flight. -/
inductive HttpOutcome where
  | status (code : Nat) (body : String)
  | netError (msg : String)
deriving DecidableEq, Repr

/-- What `_make_request` hands back to its caller when no exception is
raised: a success dict, or the parsed non-2xx error body (returned, not
raised). -/
inductive SearchResp where
  | success
  | errorBody (body : String)
deriving DecidableEq, Repr

/-- Python `str.upper()` (ASCII range), character by character. -/
def pyToUpper (s : String) : String :=
  String.mk (s.toList.map Char.toUpper)

/-- Python `str.lower()` (ASCII range), character by character. -/
def pyToLower (s : String) : String :=
  String.mk (s.toList.map Char.toLower)

/-- `_make_request`: dispatch on the upper-cased method (unsupported methods
raise `SearchSetupError`); status 200/201/202/204 yields a success value,
any other status returns the error body to the caller, and a transport
exception is re-raised as `SearchSetupError("HTTP request failed: …")`. -/
def make_request (http : Req → HttpOutcome) (method path : String) :
    Except String SearchResp :=
  let m := pyToUpper method
  if m == "GET" || m == "POST" || m == "PUT" || m == "DELETE" then
    match http { method := m, path := path } with
    | .netError e => .error ("HTTP request failed: " ++ e)
    | .status code body =>
      if code == 200 || code == 201 || code == 202 || code == 204 then .ok .success
      else .ok (.errorBody body)
  else .error ("Unsupported HTTP method: " ++ method)

/-- The safe-name derivation shared by `create_vertical` and
`delete_vertical`: lower-case the prefix, keep only alphanumerics and `-`,
truncate to 48 characters. -/
def safeVerticalName (pfx : String) : String :=
  String.mk (((pyToLower pfx).toList.filter (fun c => c.isAlphanum || c == '-')).take 48)

/-- One entry of the deletion report (`name`, `deleted`, `status`). -/
structure DelEntry where
  name : String
  deleted : Bool
  status : String
deriving DecidableEq, Repr

/-- The `resources` map of the deletion report, in deletion order. -/
structure DeleteReport where
  indexer : DelEntry
  skillset : DelEntry
  index : DelEntry
  datasource : DelEntry
deriving DecidableEq, Repr

/-- The `_delete` helper of `delete_vertical` under its `try/except`: issue
the DELETE and unconditionally mark the resource deleted; only a raised
exception is recorded as `"error: <e>"` instead.  Also returns the request
issued. -/
def deleteOne (http : Req → HttpOutcome) (endpoint name : String) :
    DelEntry × List Req :=
  let req : Req := { method := "DELETE", path := endpoint ++ "/" ++ name }
  match make_request http "DELETE" (endpoint ++ "/" ++ name) with
  | .ok _ => ({ name := name, deleted := true, status := "deleted" }, [req])
  | .error e => ({ name := name, deleted := false, status := "error: " ++ e }, [req])

/-- `delete_vertical`: sanitize the prefix (raising on an empty safe name
before any request), then delete indexer → skillset → index → data source,
tolerating per-resource failures.  Returns the report (or the raised error)
together with the list of HTTP requests issued. -/
def delete_vertical (http : Req → HttpOutcome) (pfx : String) :
    Except String (String × DeleteReport) × List Req :=
  let safe := safeVerticalName pfx
  if safe == "" then (.error "Prefix resulted in empty safe name", [])
  else
    let (rIx, t1) := deleteOne http "indexers" ("ix-" ++ safe)
    let (rSs, t2) := deleteOne http "skillsets" ("ss-" ++ safe)
    let (rIdx, t3) := deleteOne http "indexes" ("idx-" ++ safe)
    let (rDs, t4) := deleteOne http "datasources" ("ds-" ++ safe)
    (.ok (safe, { indexer := rIx, skillset := rSs, index := rIdx, datasource := rDs }),
     t1 ++ t2 ++ t3 ++ t4)

/-- `create_data_source`: raises if the storage configuration is invalid
(before any request), then PUTs the data source definition and raises when
the response is an error body. -/
def create_data_source (http : Req → HttpOutcome) (storageValid : Bool)
    (name : String) : Except String Unit × List Req :=
  if !storageValid then
    (.error "Azure Storage configuration is incomplete. Check your .env file.", [])
  else
    let req : Req := { method := "PUT", path := "datasources/" ++ name }
    match make_request http "PUT" ("datasources/" ++ name) with
    | .error e => (.error e, [req])
    | .ok .success => (.ok (), [req])
    | .ok (.errorBody b) => (.error ("Failed to create data source: " ++ b), [req])

/-- `create_index_with_integrated_vectorization`: PUT the index definition,
raising on an error response. -/
def create_index_iv (http : Req → HttpOutcome) (name : String) :
    Except String Unit × List Req :=
  let req : Req := { method := "PUT", path := "indexes/" ++ name }
  match make_request http "PUT" ("indexes/" ++ name) with
  | .error e => (.error e, [req])
  | .ok .success => (.ok (), [req])
  | .ok (.errorBody b) => (.error ("Failed to create index: " ++ b), [req])

/-- `create_skillset`: PUT the skillset definition, raising on an error
response. -/
def create_skillset (http : Req → HttpOutcome) (name : String) :
    Except String Unit × List Req :=
  let req : Req := { method := "PUT", path := "skillsets/" ++ name }
  match make_request http "PUT" ("skillsets/" ++ name) with
  | .error e => (.error e, [req])
  | .ok .success => (.ok (), [req])
  | .ok (.errorBody b) => (.error ("Failed to create skillset: " ++ b), [req])

/-- `create_indexer_with_integrated_vectorization`: PUT the indexer
definition, raising on an error response. -/
def create_indexer_iv (http : Req → HttpOutcome) (name : String) :
    Except String Unit × List Req :=
  let req : Req := { method := "PUT", path := "indexers/" ++ name }
  match make_request http "PUT" ("indexers/" ++ name) with
  | .error e => (.error e, [req])
  | .ok .success => (.ok (), [req])
  | .ok (.errorBody b) => (.error ("Failed to create indexer: " ++ b), [req])

/-- `run_indexer`: POST the run trigger, raising on an error response. -/
def run_indexer (http : Req → HttpOutcome) (name : String) :
    Except String Unit × List Req :=
  let req : Req := { method := "POST", path := "indexers/" ++ name ++ "/run" }
  match make_request http "POST" ("indexers/" ++ name ++ "/run") with
  | .error e => (.error e, [req])
  | .ok .success => (.ok (), [req])
  | .ok (.errorBody b) => (.error ("Failed to run indexer: " ++ b), [req])

/-- Resolved resource names returned by `create_vertical`. -/
structure VerticalResult where
  dataSource : String
  index : String
  skillset : String
  indexer : String
  json : Option (String × String × String × String)
deriving DecidableEq, Repr

/-- `create_vertical`: sanitize the prefix (raising on an empty safe name
before any request), derive `ds-`/`ss-`/`idx-`/`ix-` names unless explicit
names are given, then create data source → index → skillset → indexer and
trigger a run, short-circuiting on the first failure; optionally repeat for
the `-json` vertical.  Returns the result (or raised error) together with
the list of HTTP requests issued. -/
def create_vertical (http : Req → HttpOutcome) (storageValid : Bool) (pfx : String)
    (data_source_name skillset_name index_name indexer_name : Option String)
    (create_json_vertical : Bool) : Except String VerticalResult × List Req :=
  let safe := safeVerticalName pfx
  if safe == "" then (.error "Prefix resulted in empty safe name", [])
  else
    let ds_name := data_source_name.getD ("ds-" ++ safe)
    let ss_name := skillset_name.getD ("ss-" ++ safe)
    let idx_name := index_name.getD ("idx-" ++ safe)
    let ix_name := indexer_name.getD ("ix-" ++ safe)
    match create_data_source http storageValid ds_name with
    | (.error e, t) => (.error e, t)
    | (.ok _, t1) =>
      match create_index_iv http idx_name with
      | (.error e, t) => (.error e, t1 ++ t)
      | (.ok _, t2) =>
        match create_skillset http ss_name with
        | (.error e, t) => (.error e, t1 ++ t2 ++ t)
        | (.ok _, t3) =>
          match create_indexer_iv http ix_name with
          | (.error e, t) => (.error e, t1 ++ t2 ++ t3 ++ t)
          | (.ok _, t4) =>
            match run_indexer http ix_name with
            | (.error e, t) => (.error e, t1 ++ t2 ++ t3 ++ t4 ++ t)
            | (.ok _, t5) =>
              let base := t1 ++ t2 ++ t3 ++ t4 ++ t5
              if create_json_vertical then
                let js := safe ++ "-json"
                match create_data_source http storageValid ("ds-" ++ js) with
                | (.error e, t) => (.error e, base ++ t)
                | (.ok _, j1) =>
                  match create_index_iv http ("idx-" ++ js) with
                  | (.error e, t) => (.error e, base ++ j1 ++ t)
                  | (.ok _, j2) =>
                    match create_skillset http ("ss-" ++ js) with
                    | (.error e, t) => (.error e, base ++ j1 ++ j2 ++ t)
                    | (.ok _, j3) =>
                      match create_indexer_iv http ("ix-" ++ js) with
                      | (.error e, t) => (.error e, base ++ j1 ++ j2 ++ j3 ++ t)
                      | (.ok _, j4) =>
                        match run_indexer http ("ix-" ++ js) with
                        | (.error e, t) => (.error e, base ++ j1 ++ j2 ++ j3 ++ j4 ++ t)
                        | (.ok _, j5) =>
                          (.ok { dataSource := ds_name, index := idx_name,
                                 skillset := ss_name, indexer := ix_name,
                                 json := some ("ds-" ++ js, "idx-" ++ js,
                                               "ss-" ++ js, "ix-" ++ js) },
                           base ++ j1 ++ j2 ++ j3 ++ j4 ++ j5)
              else
                (.ok { dataSource := ds_name, index := idx_name, skillset := ss_name,
                       indexer := ix_name, json := none }, base)

/-- Server in which the indexer, index and data source of the `spo` vertical
exist (DELETE answers 204) but the skillset does not (DELETE answers 404
with an error body). -/
def svcNoSkillset : Req → HttpOutcome := fun r =>
  if r.path == "skillsets/ss-spo" then .status 404 "resource not found"
  else .status 204 ""

/-! ## Store lemmas (overwrite semantics) -/

theorem eraseKey_idem (k : String) (s : BlobStore) :
    eraseKey k (eraseKey k s) = eraseKey k s := by
  simp [eraseKey, List.filter_filter]

theorem eraseKey_comm (k k' : String) (s : BlobStore) :
    eraseKey k (eraseKey k' s) = eraseKey k' (eraseKey k s) := by
  simp only [eraseKey, List.filter_filter]
  congr 1
  funext p
  exact Bool.and_comm _ _

theorem eraseKey_insertOver_self (k : String) (v : BlobVal) (s : BlobStore) :
    eraseKey k (insertOver k v s) = eraseKey k s := by
  simp [insertOver, eraseKey, List.filter_filter]

theorem eraseKey_insertOver_ne (k k' : String) (v : BlobVal) (s : BlobStore) (h : k ≠ k') :
    eraseKey k (insertOver k' v s) = insertOver k' v (eraseKey k s) := by
  have hk : (k' == k) = false := by simp [Ne.symm h]
  show List.filter _ ((k', v) :: eraseKey k' s) = (k', v) :: eraseKey k' (eraseKey k s)
  rw [List.filter_cons]
  simp only [hk, Bool.not_false, if_true]
  rw [eraseKey_comm]
  rfl

theorem insertOver_idem (k : String) (v : BlobVal) (s : BlobStore) :
    insertOver k v (insertOver k v s) = insertOver k v s := by
  simp only [insertOver]
  rw [show eraseKey k ((k, v) :: eraseKey k s) = eraseKey k (insertOver k v s) from rfl,
    eraseKey_insertOver_self]

theorem countKey_insertOver_self (k : String) (v : BlobVal) (s : BlobStore) :
    countKey k (insertOver k v s) = 1 := by
  simp [countKey, insertOver, eraseKey, List.filter_filter]

theorem countKey_insertOver_ne (k k' : String) (v : BlobVal) (s : BlobStore) (h : k ≠ k') :
    countKey k (insertOver k' v s) = countKey k s := by
  have hk : (k' == k) = false := by simp [Ne.symm h]
  simp only [countKey, insertOver, eraseKey, List.filter_cons, hk, Bool.false_eq_true,
    if_false, List.filter_filter]
  congr 2
  funext p
  by_cases hp : p.1 = k
  · simp [hp, beq_iff_eq, h]
  · simp [hp, beq_iff_eq]

theorem lookupKey_insertOver_self (k : String) (v : BlobVal) (s : BlobStore) :
    lookupKey k (insertOver k v s) = some v := by
  simp [lookupKey, insertOver]

theorem lookupKey_eraseKey_ne (k k' : String) (s : BlobStore) (h : k ≠ k') :
    lookupKey k (eraseKey k' s) = lookupKey k s := by
  induction s with
  | nil => rfl
  | cons p t ih =>
    by_cases hp : p.1 = k'
    · have h1 : (p.1 == k') = true := by simp [hp]
      have h2 : (p.1 == k) = false := by simp [hp, Ne.symm h]
      simp [eraseKey, lookupKey, List.filter_cons, h1, h2, List.find?_cons] at *
      exact ih
    · have h1 : (p.1 == k') = false := by simp [hp]
      by_cases hq : p.1 = k
      · have h2 : (p.1 == k) = true := by simp [hq]
        simp [eraseKey, lookupKey, List.filter_cons, h1, h2, List.find?_cons]
      · have h2 : (p.1 == k) = false := by simp [hq]
        simp [eraseKey, lookupKey, List.filter_cons, h1, h2, List.find?_cons] at *
        exact ih

theorem lookupKey_insertOver_ne (k k' : String) (v : BlobVal) (s : BlobStore) (h : k ≠ k') :
    lookupKey k (insertOver k' v s) = lookupKey k s := by
  have h2 : (k' == k) = false := by simp [Ne.symm h]
  simp only [insertOver, lookupKey, List.find?_cons, h2]
  exact lookupKey_eraseKey_ne k k' s h

theorem key_ne_append_json (k : String) : k ≠ k ++ ".json" := by
  intro h
  have hl := congrArg String.length h
  have h5 : ".json".length = 5 := by decide
  rw [String.length_append, h5] at hl
  omega

theorem eraseKey_cons_ne (k : String) (p : String × BlobVal) (s : BlobStore)
    (h : p.1 ≠ k) : eraseKey k (p :: s) = p :: eraseKey k s := by
  simp [eraseKey, List.filter_cons, h]

theorem insertOver_absorb (k k' : String) (v v' : BlobVal) (s : BlobStore)
    (h : k ≠ k') :
    insertOver k' v' (insertOver k v (insertOver k' v' (insertOver k v s))) =
      insertOver k' v' (insertOver k v s) :=
  calc insertOver k' v' (insertOver k v (insertOver k' v' (insertOver k v s)))
      = insertOver k' v' ((k, v) :: eraseKey k (insertOver k' v' (insertOver k v s))) := rfl
    _ = insertOver k' v' ((k, v) :: insertOver k' v' (eraseKey k (insertOver k v s))) := by
        rw [eraseKey_insertOver_ne _ _ _ _ h]
    _ = insertOver k' v' ((k, v) :: insertOver k' v' (eraseKey k s)) := by
        rw [eraseKey_insertOver_self]
    _ = (k', v') :: eraseKey k' ((k, v) :: insertOver k' v' (eraseKey k s)) := rfl
    _ = (k', v') :: (k, v) :: eraseKey k' (insertOver k' v' (eraseKey k s)) := by
        rw [eraseKey_cons_ne k' (k, v) _ h]
    _ = (k', v') :: (k, v) :: eraseKey k' (eraseKey k s) := by
        rw [eraseKey_insertOver_self]
    _ = (k', v') :: eraseKey k' ((k, v) :: eraseKey k s) := by
        rw [eraseKey_cons_ne k' (k, v) _ h]
    _ = insertOver k' v' (insertOver k v s) := rfl

/-! ## C6: key derivation -/

/-- C6: `get_safe_blob_key` is a pure deterministic function of
`(parentPath, name)` — equal inputs give equal keys — and maps
`("drive:/A/B/", "f.txt")` to `"A/B/f.txt"`, `("/A//B", "f.txt")` to
`"A/B/f.txt"` (double-separator collapse) and `("", "f.txt")` to
`"f.txt"`. -/
theorem get_safe_blob_key_deterministic_and_examples :
    (∀ (p n p' n' : String), p = p' → n = n' →
      get_safe_blob_key p n = get_safe_blob_key p' n') ∧
    get_safe_blob_key "drive:/A/B/" "f.txt" = "A/B/f.txt" ∧
    get_safe_blob_key "/A//B" "f.txt" = "A/B/f.txt" ∧
    get_safe_blob_key "" "f.txt" = "f.txt" :=
  ⟨fun _ _ _ _ hp hn => by rw [hp, hn], by decide, by decide, by decide⟩

/-- Witness for C6 at a concrete input. -/
theorem get_safe_blob_key_deterministic_witness :
    get_safe_blob_key "drive:/A/B/" "f.txt" = get_safe_blob_key "drive:/A/B/" "f.txt" :=
  get_safe_blob_key_deterministic_and_examples.1
    "drive:/A/B/" "f.txt" "drive:/A/B/" "f.txt" rfl rfl

/-! ## C7: idempotent mirroring -/

/-- C7: mirroring a file item twice with identical content leaves the store
equal to mirroring it once; the derived key holds exactly one object whose
bytes and metadata are the call's inputs — no duplicate entry, no residue
from the first call. -/
theorem mirror_idempotent (cfg : SyncConfig) (env : MirrorEnv)
    (store : BlobStore) (item : SPItem)
    (hf : item.isFolder = false) (hu : env.uploadError item = none) :
    (process_sharepoint_item cfg env
        (process_sharepoint_item cfg env store item).1 item).1 =
      (process_sharepoint_item cfg env store item).1 ∧
    countKey (itemBlobKey item) (process_sharepoint_item cfg env store item).1 = 1 ∧
    lookupKey (itemBlobKey item) (process_sharepoint_item cfg env store item).1 =
      some (.blob (env.content item) (itemMetadata cfg item)) := by
  have hne := key_ne_append_json (itemBlobKey item)
  cases hsc : env.sidecarError item with
  | none =>
    simp only [process_sharepoint_item, hf, Bool.false_eq_true, if_false, hu, hsc]
    refine ⟨?_, ?_, ?_⟩
    · exact insertOver_absorb _ _ _ _ _ hne
    · rw [countKey_insertOver_ne _ _ _ _ hne, countKey_insertOver_self]
    · rw [lookupKey_insertOver_ne _ _ _ _ hne, lookupKey_insertOver_self]
  | some e =>
    simp only [process_sharepoint_item, hf, Bool.false_eq_true, if_false, hu, hsc]
    exact ⟨insertOver_idem _ _ _, countKey_insertOver_self _ _ _,
      lookupKey_insertOver_self _ _ _⟩

/-- Witness for C7 at a concrete item and store. -/
theorem mirror_idempotent_witness :
    (process_sharepoint_item cfg0 mirrorOk
        (process_sharepoint_item cfg0 mirrorOk [] (mkFile 1)).1 (mkFile 1)).1 =
      (process_sharepoint_item cfg0 mirrorOk [] (mkFile 1)).1 ∧
    countKey (itemBlobKey (mkFile 1))
        (process_sharepoint_item cfg0 mirrorOk [] (mkFile 1)).1 = 1 ∧
    lookupKey (itemBlobKey (mkFile 1))
        (process_sharepoint_item cfg0 mirrorOk [] (mkFile 1)).1 =
      some (.blob (mirrorOk.content (mkFile 1)) (itemMetadata cfg0 (mkFile 1))) :=
  mirror_idempotent cfg0 mirrorOk [] (mkFile 1) rfl rfl

/-! ## Sync loop lemmas -/

theorem processItems_cons_folder (cfg : SyncConfig) (env : MirrorEnv)
    (item : SPItem) (rest : List SPItem) (st : RunState) (h : item.isFolder = true) :
    processItems cfg env (item :: rest) st = processItems cfg env rest st := by
  simp [processItems, h]

theorem processItems_cons_ok (cfg : SyncConfig) (env : MirrorEnv)
    (item : SPItem) (rest : List SPItem) (st : RunState)
    (h : item.isFolder = false) (hu : env.uploadError item = none) :
    processItems cfg env (item :: rest) st =
      processItems cfg env rest
        { st with store := (process_sharepoint_item cfg env st.store item).1,
                  processed := st.processed + 1 } := by
  simp [processItems, process_sharepoint_item, h, hu]

theorem processItems_cons_fail (cfg : SyncConfig) (env : MirrorEnv)
    (item : SPItem) (rest : List SPItem) (st : RunState)
    (h : item.isFolder = false) (m : String) (hu : env.uploadError item = some m) :
    processItems cfg env (item :: rest) st =
      processItems cfg env rest
        { st with errors := st.errors ++ ["Failed to process " ++ item.name ++ ": " ++ m] } := by
  simp [processItems, process_sharepoint_item, h, hu]

theorem processItems_fields (cfg : SyncConfig) (env : MirrorEnv) :
    ∀ (items : List SPItem) (st : RunState),
      (processItems cfg env items st).diskCursor = st.diskCursor ∧
      (processItems cfg env items st).terminalCursor = st.terminalCursor ∧
      (processItems cfg env items st).fetchFailed = st.fetchFailed ∧
      (processItems cfg env items st).total = st.total := by
  intro items
  induction items with
  | nil => exact fun st => ⟨rfl, rfl, rfl, rfl⟩
  | cons item rest ih =>
    intro st
    cases hf : item.isFolder with
    | true => rw [processItems_cons_folder cfg env item rest st hf]; exact ih st
    | false =>
      cases hu : env.uploadError item with
      | none => rw [processItems_cons_ok cfg env item rest st hf hu]; exact ih _
      | some m => rw [processItems_cons_fail cfg env item rest st hf m hu]; exact ih _

theorem processItems_counts (cfg : SyncConfig) (env : MirrorEnv) :
    ∀ (items : List SPItem) (st : RunState),
      (processItems cfg env items st).processed +
          (processItems cfg env items st).errors.length =
        st.processed + st.errors.length + fileCount items := by
  intro items
  induction items with
  | nil => intro st; simp [processItems, fileCount]
  | cons item rest ih =>
    intro st
    cases hf : item.isFolder with
    | true =>
      rw [processItems_cons_folder cfg env item rest st hf]
      have : fileCount (item :: rest) = fileCount rest := by
        simp [fileCount, List.filter_cons, hf]
      rw [this]; exact ih st
    | false =>
      have hc : fileCount (item :: rest) = fileCount rest + 1 := by
        simp [fileCount, List.filter_cons, hf]
      cases hu : env.uploadError item with
      | none =>
        rw [processItems_cons_ok cfg env item rest st hf hu, hc, ih]
        simp
        omega
      | some m =>
        rw [processItems_cons_fail cfg env item rest st hf m hu, hc, ih]
        simp
        omega

theorem processItems_all_ok (cfg : SyncConfig) (env : MirrorEnv) :
    ∀ (items : List SPItem) (st : RunState),
      (∀ i ∈ items, i.isFolder = false → env.uploadError i = none) →
      (processItems cfg env items st).errors = st.errors ∧
      (processItems cfg env items st).processed = st.processed + fileCount items := by
  intro items
  induction items with
  | nil => intro st _; simp [processItems, fileCount]
  | cons item rest ih =>
    intro st hall
    have hrest : ∀ i ∈ rest, i.isFolder = false → env.uploadError i = none :=
      fun i hi => hall i (List.mem_cons_of_mem _ hi)
    cases hf : item.isFolder with
    | true =>
      rw [processItems_cons_folder cfg env item rest st hf]
      have : fileCount (item :: rest) = fileCount rest := by
        simp [fileCount, List.filter_cons, hf]
      rw [this]; exact ih st hrest
    | false =>
      have hu := hall item (List.mem_cons_self _ _) hf
      have hc : fileCount (item :: rest) = fileCount rest + 1 := by
        simp [fileCount, List.filter_cons, hf]
      rw [processItems_cons_ok cfg env item rest st hf hu, hc]
      obtain ⟨he, hp⟩ := ih _ hrest
      refine ⟨he, ?_⟩
      rw [hp]
      simp
      omega

theorem syncPages_none (cfg : SyncConfig) (env : SyncEnv) (fuel : Nat) (st : RunState) :
    syncPages cfg env fuel none st = st := by
  cases fuel <;> rfl

theorem syncPages_zero (cfg : SyncConfig) (env : SyncEnv) (url : Option String)
    (st : RunState) : syncPages cfg env 0 url st = st := by
  cases url <;> rfl

theorem syncPages_succ_err (cfg : SyncConfig) (env : SyncEnv) (fuel : Nat)
    (url : String) (st : RunState) (e : String)
    (h : graph_get env.att url = .error e) :
    syncPages cfg env (fuel + 1) (some url) st =
      { st with errors := st.errors ++ ["Sync failed: " ++ e], fetchFailed := some e } := by
  simp [syncPages, h]

theorem syncPages_delta_fields (cfg : SyncConfig) (env : SyncEnv) (fuel : Nat)
    (url : String) (st : RunState) (page : DeltaPage) (d : String)
    (h : graph_get env.att url = .ok page) (hd : page.deltaLink = some d) :
    (syncPages cfg env (fuel + 1) (some url) st).diskCursor =
      save_delta_state env.saveFails
        (processItems cfg env.mirror page.value
          { st with total := st.total + fileCount page.value }).diskCursor (some d) ∧
    (syncPages cfg env (fuel + 1) (some url) st).terminalCursor = some d ∧
    (syncPages cfg env (fuel + 1) (some url) st).fetchFailed =
      (processItems cfg env.mirror page.value
        { st with total := st.total + fileCount page.value }).fetchFailed ∧
    (syncPages cfg env (fuel + 1) (some url) st).processed =
      (processItems cfg env.mirror page.value
        { st with total := st.total + fileCount page.value }).processed ∧
    (syncPages cfg env (fuel + 1) (some url) st).errors =
      (processItems cfg env.mirror page.value
        { st with total := st.total + fileCount page.value }).errors ∧
    (syncPages cfg env (fuel + 1) (some url) st).total =
      (processItems cfg env.mirror page.value
        { st with total := st.total + fileCount page.value }).total := by
  simp [syncPages, h, hd]

theorem syncPages_succ_ok_next (cfg : SyncConfig) (env : SyncEnv) (fuel : Nat)
    (url : String) (st : RunState) (page : DeltaPage)
    (h : graph_get env.att url = .ok page) (hd : page.deltaLink = none) :
    syncPages cfg env (fuel + 1) (some url) st =
      syncPages cfg env fuel page.nextLink
        (processItems cfg env.mirror page.value
          { st with total := st.total + fileCount page.value }) := by
  simp [syncPages, h, hd]

/-- Behavior of the page loop relative to its entry state: the cursor file
changes only when a terminal `deltaLink` was received and saving is
possible; a terminal cursor excludes a fetch failure; when no fetch failure
occurred, processed + failure messages accounts for every file item fetched;
and a fetch failure leaves the cursor untouched, the terminal cursor unset,
and ends the error list with the caught exception. -/
theorem syncPages_spec (cfg : SyncConfig) (env : SyncEnv) :
    ∀ (fuel : Nat) (url : Option String) (st : RunState),
      st.terminalCursor = none → st.fetchFailed = none →
      ((syncPages cfg env fuel url st).diskCursor = st.diskCursor ∨
        (env.saveFails = false ∧ ∃ d,
          (syncPages cfg env fuel url st).terminalCursor = some d ∧
          (syncPages cfg env fuel url st).diskCursor = some d)) ∧
      (∀ d, (syncPages cfg env fuel url st).terminalCursor = some d →
        (syncPages cfg env fuel url st).fetchFailed = none) ∧
      ((syncPages cfg env fuel url st).fetchFailed = none →
        (syncPages cfg env fuel url st).processed +
            (syncPages cfg env fuel url st).errors.length + st.total =
          st.processed + st.errors.length + (syncPages cfg env fuel url st).total) ∧
      (∀ e, (syncPages cfg env fuel url st).fetchFailed = some e →
        (syncPages cfg env fuel url st).terminalCursor = none ∧
        (syncPages cfg env fuel url st).diskCursor = st.diskCursor ∧
        (syncPages cfg env fuel url st).errors.getLast? =
          some ("Sync failed: " ++ e)) := by
  intro fuel
  induction fuel with
  | zero =>
    intro url st ht hf
    rw [syncPages_zero]
    refine ⟨Or.inl rfl, ?_, fun _ => by omega, ?_⟩
    · intro d hd; rw [ht] at hd; exact absurd hd (by simp)
    · intro e he; rw [hf] at he; exact absurd he (by simp)
  | succ fuel ih =>
    intro url st ht hf
    match url with
    | none =>
      rw [syncPages_none]
      refine ⟨Or.inl rfl, ?_, fun _ => by omega, ?_⟩
      · intro d hd; rw [ht] at hd; exact absurd hd (by simp)
      · intro e he; rw [hf] at he; exact absurd he (by simp)
    | some u =>
      cases hg : graph_get env.att u with
      | error e =>
        rw [syncPages_succ_err cfg env fuel u st e hg]
        refine ⟨Or.inl rfl, ?_, ?_, ?_⟩
        · intro d hd; rw [ht] at hd; exact absurd hd (by simp)
        · intro hnone; exact absurd hnone (by simp)
        · intro e' he'
          have : e = e' := by simpa using he'
          subst this
          exact ⟨ht, rfl, by simp⟩
      | ok page =>
        have hfields := processItems_fields cfg env.mirror page.value
          { st with total := st.total + fileCount page.value }
        have hcounts := processItems_counts cfg env.mirror page.value
          { st with total := st.total + fileCount page.value }
        set st2 := processItems cfg env.mirror page.value
          { st with total := st.total + fileCount page.value } with hst2
        have hdk : st2.diskCursor = st.diskCursor := hfields.1
        have htc : st2.terminalCursor = st.terminalCursor := hfields.2.1
        have hff : st2.fetchFailed = st.fetchFailed := hfields.2.2.1
        have htot : st2.total = st.total + fileCount page.value := hfields.2.2.2
        have hcnt : st2.processed + st2.errors.length =
            st.processed + st.errors.length + fileCount page.value := hcounts
        cases hd : page.deltaLink with
        | some d =>
          obtain ⟨f1, f2, f3, f4, f5, f6⟩ :=
            syncPages_delta_fields cfg env fuel u st page d hg hd
          have e1 : (syncPages cfg env (fuel + 1) (some u) st).diskCursor =
              save_delta_state env.saveFails st2.diskCursor (some d) := f1
          have e3 : (syncPages cfg env (fuel + 1) (some u) st).fetchFailed =
              st2.fetchFailed := f3
          have e4 : (syncPages cfg env (fuel + 1) (some u) st).processed =
              st2.processed := f4
          have e5 : (syncPages cfg env (fuel + 1) (some u) st).errors =
              st2.errors := f5
          have e6 : (syncPages cfg env (fuel + 1) (some u) st).total =
              st2.total := f6
          refine ⟨?_, ?_, ?_, ?_⟩
          · cases hs : env.saveFails with
            | true =>
              refine Or.inl ?_
              rw [e1, hs, hdk]
              rfl
            | false =>
              refine Or.inr ⟨rfl, d, f2, ?_⟩
              rw [e1, hs]
              rfl
          · intro d' _
            rw [e3, hff, hf]
          · intro _
            rw [e4, e5, e6, htot]
            omega
          · intro e he
            rw [e3, hff, hf] at he
            exact absurd he (by simp)
        | none =>
          rw [syncPages_succ_ok_next cfg env fuel u st page hg hd, ← hst2]
          have hterm2 : st2.terminalCursor = none := htc.trans ht
          have hfetch2 : st2.fetchFailed = none := hff.trans hf
          obtain ⟨ih1, ih2, ih3, ih4⟩ := ih page.nextLink st2 hterm2 hfetch2
          refine ⟨?_, ih2, ?_, ?_⟩
          · rcases ih1 with h1 | ⟨hs, d, h2, h3⟩
            · exact Or.inl (h1.trans hdk)
            · exact Or.inr ⟨hs, d, h2, h3⟩
          · intro hnone
            have h3 := ih3 hnone
            omega
          · intro e he
            obtain ⟨h1, h2, h3⟩ := ih4 e he
            exact ⟨h1, h2.trans hdk, h3⟩

/-- C1: the cursor file is written only after a terminal cursor has been
received and every file item of every fetched page has reached a terminal
state (mirrored, or recorded as a failure message in the summary); a run
that is aborted by a page-fetch error before receiving a terminal cursor
leaves the cursor file unchanged. -/
theorem sync_cursor_only_after_terminal (cfg : SyncConfig) (env : SyncEnv)
    (fuel : Nat) (store0 : BlobStore) (disk0 : Option String) :
    ((sync_sharepoint_folder cfg env fuel store0 disk0).2.diskCursor ≠ disk0 →
      ∃ d, (sync_sharepoint_folder cfg env fuel store0 disk0).2.terminalCursor = some d ∧
        (sync_sharepoint_folder cfg env fuel store0 disk0).2.diskCursor = some d ∧
        (sync_sharepoint_folder cfg env fuel store0 disk0).2.fetchFailed = none ∧
        (sync_sharepoint_folder cfg env fuel store0 disk0).1.processed_files +
            (sync_sharepoint_folder cfg env fuel store0 disk0).1.errors.length =
          (sync_sharepoint_folder cfg env fuel store0 disk0).1.total_files) ∧
    (∀ e, (sync_sharepoint_folder cfg env fuel store0 disk0).2.fetchFailed = some e →
      (sync_sharepoint_folder cfg env fuel store0 disk0).2.diskCursor = disk0) := by
  have hspec := syncPages_spec cfg env fuel (some (startUrl cfg disk0))
    { store := store0, diskCursor := disk0, total := 0, processed := 0,
      errors := [], terminalCursor := none, fetchFailed := none } rfl rfl
  obtain ⟨h1, h2, h3, h4⟩ := hspec
  constructor
  · intro hchanged
    rcases h1 with heq | ⟨_, d, hterm, hdisk⟩
    · exact absurd heq hchanged
    · refine ⟨d, hterm, hdisk, h2 d hterm, ?_⟩
      have := h3 (h2 d hterm)
      simpa [sync_sharepoint_folder] using this
  · intro e he
    exact (h4 e he).2.1

/-- Witness for C1: applied both to a clean two-page run (the cursor did
change, so a terminal cursor was received and all items are accounted for)
and to a run whose only page fetch fails (the cursor file is unchanged). -/
theorem sync_cursor_only_after_terminal_witness :
    (∃ d, (sync_sharepoint_folder cfg0 envTwoPages 2 [] none).2.terminalCursor = some d ∧
      (sync_sharepoint_folder cfg0 envTwoPages 2 [] none).2.diskCursor = some d ∧
      (sync_sharepoint_folder cfg0 envTwoPages 2 [] none).2.fetchFailed = none ∧
      (sync_sharepoint_folder cfg0 envTwoPages 2 [] none).1.processed_files +
          (sync_sharepoint_folder cfg0 envTwoPages 2 [] none).1.errors.length =
        (sync_sharepoint_folder cfg0 envTwoPages 2 [] none).1.total_files) ∧
    (sync_sharepoint_folder cfg0 envFetchFails 2 [] (some "cursor0")).2.diskCursor =
      some "cursor0" :=
  ⟨(sync_cursor_only_after_terminal cfg0 envTwoPages 2 [] none).1 (by decide),
    (sync_cursor_only_after_terminal cfg0 envFetchFails 2 [] (some "cursor0")).2
      "boom" (by decide)⟩

/-! ## Replaying a linear feed of pages -/

/-- The cumulative effect of the sync loop on the feed's successive pages:
add each page's file count to the total, then process its items. -/
def processFeed (cfg : SyncConfig) (env : MirrorEnv) :
    List (List SPItem) → RunState → RunState
  | [], st => st
  | items :: rest, st =>
    processFeed cfg env rest
      (processItems cfg env items { st with total := st.total + fileCount items })

theorem fileCount_append (a b : List SPItem) :
    fileCount (a ++ b) = fileCount a + fileCount b := by
  simp [fileCount, List.filter_append]

theorem processItems_set_total (cfg : SyncConfig) (env : MirrorEnv) :
    ∀ (items : List SPItem) (st : RunState) (t : Nat),
      processItems cfg env items { st with total := t } =
        { processItems cfg env items st with total := t } := by
  intro items
  induction items with
  | nil => intro st t; rfl
  | cons item rest ih =>
    intro st t
    cases hf : item.isFolder with
    | true =>
      rw [processItems_cons_folder _ _ _ _ _ hf, processItems_cons_folder _ _ _ _ _ hf]
      exact ih st t
    | false =>
      cases hu : env.uploadError item with
      | none =>
        rw [processItems_cons_ok _ _ _ _ _ hf hu, processItems_cons_ok _ _ _ _ _ hf hu]
        exact ih { st with store := (process_sharepoint_item cfg env st.store item).1,
                           processed := st.processed + 1 } t
      | some m =>
        rw [processItems_cons_fail _ _ _ _ _ hf m hu,
          processItems_cons_fail _ _ _ _ _ hf m hu]
        exact ih { st with
          errors := st.errors ++ ["Failed to process " ++ item.name ++ ": " ++ m] } t

theorem processItems_append (cfg : SyncConfig) (env : MirrorEnv) :
    ∀ (as bs : List SPItem) (st : RunState),
      processItems cfg env (as ++ bs) st =
        processItems cfg env bs (processItems cfg env as st) := by
  intro as
  induction as with
  | nil => intro bs st; rfl
  | cons item rest ih =>
    intro bs st
    rw [List.cons_append]
    cases hf : item.isFolder with
    | true =>
      rw [processItems_cons_folder _ _ _ _ _ hf, processItems_cons_folder _ _ _ _ _ hf]
      exact ih bs st
    | false =>
      cases hu : env.uploadError item with
      | none =>
        rw [processItems_cons_ok _ _ _ _ _ hf hu, processItems_cons_ok _ _ _ _ _ hf hu]
        exact ih bs _
      | some m =>
        rw [processItems_cons_fail _ _ _ _ _ hf m hu,
          processItems_cons_fail _ _ _ _ _ hf m hu]
        exact ih bs _

theorem processFeed_flatten (cfg : SyncConfig) (env : MirrorEnv) :
    ∀ (pages : List (List SPItem)) (st : RunState),
      processFeed cfg env pages st =
        processItems cfg env pages.flatten
          { st with total := st.total + fileCount pages.flatten } := by
  intro pages
  induction pages with
  | nil => intro st; rfl
  | cons p ps ih =>
    intro st
    rw [processFeed, ih]
    have htot : (processItems cfg env p { st with total := st.total + fileCount p }).total =
        st.total + fileCount p :=
      (processItems_fields cfg env p _).2.2.2
    rw [htot, ← processItems_set_total]
    rw [List.flatten_cons, fileCount_append, processItems_append, Nat.add_assoc]

theorem processItems_eq_filter (cfg : SyncConfig) (env : MirrorEnv) :
    ∀ (items : List SPItem) (st : RunState),
      processItems cfg env items st =
        processItems cfg env (items.filter (fun i => !i.isFolder)) st := by
  intro items
  induction items with
  | nil => intro st; rfl
  | cons item rest ih =>
    intro st
    cases hf : item.isFolder with
    | true =>
      rw [processItems_cons_folder _ _ _ _ _ hf, List.filter_cons]
      simp only [hf, Bool.not_true, Bool.false_eq_true, if_false]
      exact ih st
    | false =>
      rw [List.filter_cons]
      simp only [hf, Bool.not_false, if_true]
      cases hu : env.uploadError item with
      | none =>
        rw [processItems_cons_ok _ _ _ _ _ hf hu, processItems_cons_ok _ _ _ _ _ hf hu]
        exact ih _
      | some m =>
        rw [processItems_cons_fail _ _ _ _ _ hf m hu,
          processItems_cons_fail _ _ _ _ _ hf m hu]
        exact ih _

/-- Running the loop against a linear feed of pages — page `i` served at
`urls[i]`, pointing to `urls[i+1]`, the last page carrying the terminal
cursor `d` — processes every page in order and then saves the cursor. -/
theorem syncPages_feed (cfg : SyncConfig) (env : SyncEnv) (d : String) :
    ∀ (pages : List (List SPItem)) (urls : List String) (fuel : Nat) (st : RunState),
      urls.length = pages.length → pages.length ≤ fuel → pages ≠ [] →
      (∀ i, i < pages.length →
        graph_get env.att (urls.getD i "") = .ok
          { value := pages.getD i [], nextLink := urls[i+1]?,
            deltaLink := if i + 1 = pages.length then some d else none }) →
      syncPages cfg env fuel (some (urls.getD 0 "")) st =
        { processFeed cfg env.mirror pages st with
          diskCursor := save_delta_state env.saveFails
            (processFeed cfg env.mirror pages st).diskCursor (some d)
          terminalCursor := some d } := by
  intro pages
  induction pages with
  | nil => intro urls fuel st _ _ hne _; exact absurd rfl hne
  | cons p ps ih =>
    intro urls fuel st hlen hfuel _ hfeed
    match urls, hlen with
    | u :: us, hlen =>
      match fuel, hfuel with
      | f + 1, hfuel =>
        have h0 := hfeed 0 (by simp)
        cases hps : ps with
        | nil =>
          subst hps
          have hus : us = [] := by
            have h := hlen
            simp at h
            exact h
          subst hus
          have h0' : graph_get env.att u = .ok
              { value := p, nextLink := none, deltaLink := some d } := by
            simpa using h0
          simp [syncPages, h0', processFeed]
        | cons q qs =>
          subst hps
          match us, hlen with
          | u' :: us', hlen =>
            have h0' : graph_get env.att u = .ok
                { value := p, nextLink := some u', deltaLink := none } := by
              have hcond : ¬ (0 + 1 = (p :: q :: qs).length) := by simp
              simpa [hcond] using h0
            rw [show ((u :: u' :: us').getD 0 "") = u from rfl,
              syncPages_succ_ok_next cfg env f u st _ h0' rfl]
            rw [processFeed]
            have ihh := ih (u' :: us') f
              (processItems cfg env.mirror p { st with total := st.total + fileCount p })
              (by simpa using hlen) (by simpa using hfuel) (by simp)
              ?_
            · exact ihh
            · intro i hi
              have h1 := hfeed (i + 1) (by simpa using Nat.succ_lt_succ hi)
              have hgd : ((u :: u' :: us').getD (i + 1) "") = ((u' :: us').getD i "") := by
                simp
              have hge : (u :: u' :: us')[i + 1 + 1]? = (u' :: us')[i + 1]? := by
                simp
              rw [hgd, hge] at h1
              have hiff : (i + 1 + 1 = (p :: q :: qs).length) ↔
                  (i + 1 = (q :: qs).length) := by simp
              rw [show (if i + 1 + 1 = (p :: q :: qs).length then some d else none) =
                (if i + 1 = (q :: qs).length then some d else none) from by
                  by_cases hc : i + 1 = (q :: qs).length
                  · rw [if_pos (hiff.mpr hc), if_pos hc]
                  · rw [if_neg (fun hcc => hc (hiff.mp hcc)), if_neg hc]] at h1
              exact h1

/-! ## C2: propagation of non-per-item errors -/

/-- C2 counterexample: in a run whose only page fetch fails on all 3 retry
attempts (`graph_get` reports the exhausted-budget error), the error is
caught inside `sync_sharepoint_folder` and recorded as a run-summary entry,
and the function returns the summary normally — the failure is downgraded
exactly like a per-item error instead of propagating. -/
theorem fetch_error_downgraded_counterexample :
    graph_get envFetchFails.att (startUrl cfg0 none) = .error "boom" ∧
    (sync_sharepoint_folder cfg0 envFetchFails 2 [] none).1.errors =
      ["Sync failed: boom"] ∧
    (sync_sharepoint_folder cfg0 envFetchFails 2 [] none).2.fetchFailed = some "boom" :=
  ⟨rfl, rfl, rfl⟩

/-- C2 amended: a page-fetch failure (after the retry budget) aborts the
page loop without persisting a cursor, but `sync_sharepoint_folder` catches
it, appends `"Sync failed: <e>"` to the summary's error list, and returns
the summary normally; the error does not propagate to the caller. -/
theorem fetch_error_recorded_in_summary (cfg : SyncConfig) (env : SyncEnv)
    (fuel : Nat) (store0 : BlobStore) (disk0 : Option String) (e : String)
    (h : (sync_sharepoint_folder cfg env fuel store0 disk0).2.fetchFailed = some e) :
    (sync_sharepoint_folder cfg env fuel store0 disk0).1.errors.getLast? =
      some ("Sync failed: " ++ e) ∧
    (sync_sharepoint_folder cfg env fuel store0 disk0).2.diskCursor = disk0 ∧
    (sync_sharepoint_folder cfg env fuel store0 disk0).2.terminalCursor = none := by
  have hspec := syncPages_spec cfg env fuel (some (startUrl cfg disk0))
    { store := store0, diskCursor := disk0, total := 0, processed := 0,
      errors := [], terminalCursor := none, fetchFailed := none } rfl rfl
  obtain ⟨_, _, _, h4⟩ := hspec
  obtain ⟨h1, h2, h3⟩ := h4 e h
  exact ⟨h3, h2, h1⟩

/-- Witness for the amended C2 at a concrete failing run. -/
theorem fetch_error_recorded_in_summary_witness :
    (sync_sharepoint_folder cfg0 envFetchFails 2 [] (some "c0")).1.errors.getLast? =
      some ("Sync failed: boom") ∧
    (sync_sharepoint_folder cfg0 envFetchFails 2 [] (some "c0")).2.diskCursor =
      some "c0" ∧
    (sync_sharepoint_folder cfg0 envFetchFails 2 [] (some "c0")).2.terminalCursor =
      none :=
  fetch_error_recorded_in_summary cfg0 envFetchFails 2 [] (some "c0") "boom" (by decide)

/-! ## C4: fresh two-page scenario -/

/-- C4: a FRESH run against a two-page feed (page 1: files 1–3, next-page
cursor `X`; page 2: files 4–5, terminal cursor `Y`) with all mirrors
succeeding writes the five mirrored objects, reports total 5 / processed 5
with no errors, and persists exactly the terminal cursor `Y`. -/
theorem fresh_two_page_run :
    (sync_sharepoint_folder cfg0 envTwoPages 2 [] none).1.total_files = 5 ∧
    (sync_sharepoint_folder cfg0 envTwoPages 2 [] none).1.processed_files = 5 ∧
    (sync_sharepoint_folder cfg0 envTwoPages 2 [] none).1.errors = [] ∧
    (sync_sharepoint_folder cfg0 envTwoPages 2 [] none).2.diskCursor = some "Y" ∧
    mirroredKeys (sync_sharepoint_folder cfg0 envTwoPages 2 [] none).2.store =
      ["Docs/f5.txt", "Docs/f4.txt", "Docs/f3.txt", "Docs/f2.txt", "Docs/f1.txt"] :=
  ⟨by decide, by decide, by decide, by decide, by decide⟩

/-! ## C5: partial-failure tolerance -/

/-- C5: a run whose page fetches succeed and whose feed carries exactly the
file items `x, y, z`, of which only `y` fails to mirror, completes without
raising and reports total 3, processed 2, and exactly the one failure
message for `y`. -/
theorem partial_failure_tolerance (cfg : SyncConfig) (env : SyncEnv) (fuel : Nat)
    (store0 : BlobStore) (disk0 : Option String)
    (pages : List (List SPItem)) (urls : List String) (d : String)
    (x y z : SPItem) (m : String)
    (hlen : urls.length = pages.length) (hfuel : pages.length ≤ fuel)
    (hne : pages ≠ [])
    (hstart : startUrl cfg disk0 = urls.getD 0 "")
    (hfeed : ∀ i, i < pages.length →
      graph_get env.att (urls.getD i "") = .ok
        { value := pages.getD i [], nextLink := urls[i+1]?,
          deltaLink := if i + 1 = pages.length then some d else none })
    (hitems : pages.flatten.filter (fun i => !i.isFolder) = [x, y, z])
    (hx : env.mirror.uploadError x = none)
    (hy : env.mirror.uploadError y = some m)
    (hz : env.mirror.uploadError z = none) :
    (sync_sharepoint_folder cfg env fuel store0 disk0).1.total_files = 3 ∧
    (sync_sharepoint_folder cfg env fuel store0 disk0).1.processed_files = 2 ∧
    (sync_sharepoint_folder cfg env fuel store0 disk0).1.errors =
      ["Failed to process " ++ y.name ++ ": " ++ m] := by
  have key := syncPages_feed cfg env d pages urls fuel
    { store := store0, diskCursor := disk0, total := 0, processed := 0,
      errors := [], terminalCursor := none, fetchFailed := none }
    hlen hfuel hne hfeed
  rw [← hstart] at key
  set st0 : RunState :=
    { store := store0, diskCursor := disk0, total := 0, processed := 0,
      errors := [], terminalCursor := none, fetchFailed := none } with hst0
  set P := processFeed cfg env.mirror pages st0 with hP
  have hxf : x.isFolder = false := by
    have hm : x ∈ pages.flatten.filter (fun i => !i.isFolder) := by
      rw [hitems]; exact List.mem_cons_self _ _
    simpa using (List.mem_filter.mp hm).2
  have hyf : y.isFolder = false := by
    have hm : y ∈ pages.flatten.filter (fun i => !i.isFolder) := by
      rw [hitems]; simp
    simpa using (List.mem_filter.mp hm).2
  have hzf : z.isFolder = false := by
    have hm : z ∈ pages.flatten.filter (fun i => !i.isFolder) := by
      rw [hitems]; simp
    simpa using (List.mem_filter.mp hm).2
  have hfc : fileCount pages.flatten = 3 := by
    unfold fileCount
    rw [hitems]
    rfl
  have hPexpand : P = processItems cfg env.mirror [x, y, z]
      { st0 with total := st0.total + fileCount pages.flatten } := by
    rw [hP, processFeed_flatten, processItems_eq_filter, hitems]
  have hPtot : P.total = 3 := by
    rw [hPexpand]
    have := (processItems_fields cfg env.mirror [x, y, z]
      { st0 with total := st0.total + fileCount pages.flatten }).2.2.2
    rw [this, hfc]
  have hPsteps : P = processItems cfg env.mirror []
      (((fun st => { st with
          store := (process_sharepoint_item cfg env.mirror st.store z).1,
          processed := st.processed + 1 }) ∘
        (fun st => { st with
          errors := st.errors ++ ["Failed to process " ++ y.name ++ ": " ++ m] }) ∘
        (fun st => { st with
          store := (process_sharepoint_item cfg env.mirror st.store x).1,
          processed := st.processed + 1 }))
        { st0 with total := st0.total + fileCount pages.flatten }) := by
    rw [hPexpand, processItems_cons_ok _ _ _ _ _ hxf hx,
      processItems_cons_fail _ _ _ _ _ hyf m hy,
      processItems_cons_ok _ _ _ _ _ hzf hz]
    rfl
  have hPproc : P.processed = 2 := by rw [hPsteps]; rfl
  have hPerr : P.errors = ["Failed to process " ++ y.name ++ ": " ++ m] := by
    rw [hPsteps]; rfl
  refine ⟨?_, ?_, ?_⟩
  · show (syncPages cfg env fuel (some (startUrl cfg disk0)) st0).total = 3
    rw [key]
    exact hPtot
  · show (syncPages cfg env fuel (some (startUrl cfg disk0)) st0).processed = 2
    rw [key]
    exact hPproc
  · show (syncPages cfg env fuel (some (startUrl cfg disk0)) st0).errors =
      ["Failed to process " ++ y.name ++ ": " ++ m]
    rw [key]
    exact hPerr

/-- Single-page feed in which file 2's mirror fails. -/
def attOnePage : String → Nat → Except String DeltaPage := fun url _ =>
  if url == initialDeltaUrl cfg0 then
    .ok { value := [mkFile 1, mkFile 2, mkFile 3], nextLink := none, deltaLink := some "Z" }
  else .error "itemNotFound"

/-- Mirror environment in which exactly `f2.txt` fails to upload. -/
def mirrorFailF2 : MirrorEnv :=
  { content := fun i => [i.size]
    uploadError := fun i => if i.name == "f2.txt" then some "disk full" else none
    sidecarError := fun _ => none }

/-- Environment of the one-page scenario with the middle item failing. -/
def envOnePage : SyncEnv :=
  { att := attOnePage, mirror := mirrorFailF2, saveFails := false }

/-- Witness for C5 at the concrete one-page feed. -/
theorem partial_failure_tolerance_witness :
    (sync_sharepoint_folder cfg0 envOnePage 1 [] none).1.total_files = 3 ∧
    (sync_sharepoint_folder cfg0 envOnePage 1 [] none).1.processed_files = 2 ∧
    (sync_sharepoint_folder cfg0 envOnePage 1 [] none).1.errors =
      ["Failed to process " ++ (mkFile 2).name ++ ": " ++ "disk full"] :=
  partial_failure_tolerance cfg0 envOnePage 1 [] none
    [[mkFile 1, mkFile 2, mkFile 3]] [initialDeltaUrl cfg0] "Z"
    (mkFile 1) (mkFile 2) (mkFile 3) "disk full"
    rfl (by decide) (by simp) rfl
    (fun i hi => by
      have h0 : i = 0 := by simpa using hi
      subst h0
      rfl)
    (by decide) rfl rfl rfl

/-! ## C8: cursor-write failure is invisible in the summary -/

/-- C8: when the cursor-file write raises `IOError` at the end of an
otherwise clean run, `save_delta_state` swallows the error:
`sync_sharepoint_folder` still returns a summary with no error recorded,
and the on-disk cursor is unchanged. -/
theorem cursor_write_failure_invisible (cfg : SyncConfig) (env : SyncEnv)
    (fuel : Nat) (store0 : BlobStore) (disk0 : Option String)
    (pages : List (List SPItem)) (urls : List String) (d : String)
    (hsave : env.saveFails = true)
    (hlen : urls.length = pages.length) (hfuel : pages.length ≤ fuel)
    (hne : pages ≠ [])
    (hstart : startUrl cfg disk0 = urls.getD 0 "")
    (hfeed : ∀ i, i < pages.length →
      graph_get env.att (urls.getD i "") = .ok
        { value := pages.getD i [], nextLink := urls[i+1]?,
          deltaLink := if i + 1 = pages.length then some d else none })
    (hok : ∀ i ∈ pages.flatten, i.isFolder = false →
      env.mirror.uploadError i = none) :
    (sync_sharepoint_folder cfg env fuel store0 disk0).1.errors = [] ∧
    (sync_sharepoint_folder cfg env fuel store0 disk0).2.terminalCursor = some d ∧
    (sync_sharepoint_folder cfg env fuel store0 disk0).2.diskCursor = disk0 := by
  have key := syncPages_feed cfg env d pages urls fuel
    { store := store0, diskCursor := disk0, total := 0, processed := 0,
      errors := [], terminalCursor := none, fetchFailed := none }
    hlen hfuel hne hfeed
  rw [← hstart] at key
  set st0 : RunState :=
    { store := store0, diskCursor := disk0, total := 0, processed := 0,
      errors := [], terminalCursor := none, fetchFailed := none } with hst0
  set P := processFeed cfg env.mirror pages st0 with hP
  have hPerr : P.errors = [] := by
    rw [hP, processFeed_flatten]
    have hflat : ∀ i ∈ pages.flatten, i.isFolder = false →
        env.mirror.uploadError i = none := hok
    exact (processItems_all_ok cfg env.mirror pages.flatten
      { st0 with total := st0.total + fileCount pages.flatten } hflat).1
  have hPdk : P.diskCursor = disk0 := by
    rw [hP, processFeed_flatten]
    exact (processItems_fields cfg env.mirror pages.flatten
      { st0 with total := st0.total + fileCount pages.flatten }).1
  refine ⟨?_, ?_, ?_⟩
  · show (syncPages cfg env fuel (some (startUrl cfg disk0)) st0).errors = []
    rw [key]
    exact hPerr
  · show (syncPages cfg env fuel (some (startUrl cfg disk0)) st0).terminalCursor = some d
    rw [key]
  · show (syncPages cfg env fuel (some (startUrl cfg disk0)) st0).diskCursor = disk0
    rw [key]
    show save_delta_state env.saveFails P.diskCursor (some d) = disk0
    rw [save_delta_state, hsave, if_pos rfl]
    exact hPdk

/-- The two-page environment with a failing cursor-file write. -/
def envTwoPagesSaveFail : SyncEnv :=
  { att := attTwoPages, mirror := mirrorOk, saveFails := true }

/-- Witness for C8 at the concrete two-page feed with a failing cursor
write. -/
theorem cursor_write_failure_invisible_witness :
    (sync_sharepoint_folder cfg0 envTwoPagesSaveFail 2 [] none).1.errors = [] ∧
    (sync_sharepoint_folder cfg0 envTwoPagesSaveFail 2 [] none).2.terminalCursor =
      some "Y" ∧
    (sync_sharepoint_folder cfg0 envTwoPagesSaveFail 2 [] none).2.diskCursor = none :=
  cursor_write_failure_invisible cfg0 envTwoPagesSaveFail 2 [] none
    [[mkFile 1, mkFile 2, mkFile 3], [mkFile 4, mkFile 5]]
    [initialDeltaUrl cfg0, "X"] "Y"
    rfl rfl (by decide) (by simp) rfl
    (fun i hi => by
      match i with
      | 0 => rfl
      | 1 => rfl
      | n + 2 =>
        exact absurd hi (by simp only [List.length_cons, List.length_nil]; omega))
    (fun i _ _ => rfl)

/-! ## C10: guarded success rate -/

/-- C10: the summary's `success_rate` is computed with the division guarded:
it is `processed / total * 100` when `total > 0` and `0` when `total = 0`,
so summary construction never divides by zero. -/
theorem success_rate_guarded (cfg : SyncConfig) (env : SyncEnv) (fuel : Nat)
    (store0 : BlobStore) (disk0 : Option String) :
    ((sync_sharepoint_folder cfg env fuel store0 disk0).1.total_files = 0 →
      (sync_sharepoint_folder cfg env fuel store0 disk0).1.success_rate = 0) ∧
    (0 < (sync_sharepoint_folder cfg env fuel store0 disk0).1.total_files →
      (sync_sharepoint_folder cfg env fuel store0 disk0).1.success_rate =
        ((sync_sharepoint_folder cfg env fuel store0 disk0).1.processed_files : Rat) /
          ((sync_sharepoint_folder cfg env fuel store0 disk0).1.total_files : Rat) * 100) := by
  simp only [sync_sharepoint_folder]
  constructor
  · intro h
    simp [h]
  · intro h
    simp only [gt_iff_lt]
    rw [if_pos h]

/-- Witness for C10: a run with zero files reports rate 0, a run with five
files reports the computed percentage. -/
theorem success_rate_guarded_witness :
    (sync_sharepoint_folder cfg0 envFetchFails 2 [] none).1.success_rate = 0 ∧
    (sync_sharepoint_folder cfg0 envTwoPages 2 [] none).1.success_rate =
      ((sync_sharepoint_folder cfg0 envTwoPages 2 [] none).1.processed_files : Rat) /
        ((sync_sharepoint_folder cfg0 envTwoPages 2 [] none).1.total_files : Rat) * 100 :=
  ⟨(success_rate_guarded cfg0 envFetchFails 2 [] none).1 (by decide),
   (success_rate_guarded cfg0 envTwoPages 2 [] none).2 (by decide)⟩

/-! ## Provisioning-client lemmas -/

theorem make_request_delete (http : Req → HttpOutcome) (path : String) :
    make_request http "DELETE" path =
      (match http { method := "DELETE", path := path } with
       | .netError e => .error ("HTTP request failed: " ++ e)
       | .status code body =>
         if code == 200 || code == 201 || code == 202 || code == 204 then
           .ok .success
         else .ok (.errorBody body)) := rfl

theorem deleteOne_trace (http : Req → HttpOutcome) (endpoint name : String) :
    (deleteOne http endpoint name).2 =
      [{ method := "DELETE", path := endpoint ++ "/" ++ name }] := by
  unfold deleteOne
  cases make_request http "DELETE" (endpoint ++ "/" ++ name) <;> rfl

theorem deleteOne_no_net (http : Req → HttpOutcome) (endpoint name : String)
    (hnet : ∀ e, http { method := "DELETE", path := endpoint ++ "/" ++ name } ≠
      .netError e) :
    (deleteOne http endpoint name).1 =
      { name := name, deleted := true, status := "deleted" } := by
  unfold deleteOne
  rw [make_request_delete]
  cases hr : http { method := "DELETE", path := endpoint ++ "/" ++ name } with
  | status code body =>
    by_cases hc : (code == 200 || code == 201 || code == 202 || code == 204) = true
    · simp [hc]
    · simp [hc]
  | netError e => exact absurd hr (hnet e)

theorem delete_vertical_expand (http : Req → HttpOutcome) (pfx : String)
    (h : (safeVerticalName pfx == "") = false) :
    delete_vertical http pfx =
      (.ok (safeVerticalName pfx,
        { indexer := (deleteOne http "indexers" ("ix-" ++ safeVerticalName pfx)).1
          skillset := (deleteOne http "skillsets" ("ss-" ++ safeVerticalName pfx)).1
          index := (deleteOne http "indexes" ("idx-" ++ safeVerticalName pfx)).1
          datasource := (deleteOne http "datasources" ("ds-" ++ safeVerticalName pfx)).1 }),
       (deleteOne http "indexers" ("ix-" ++ safeVerticalName pfx)).2 ++
         (deleteOne http "skillsets" ("ss-" ++ safeVerticalName pfx)).2 ++
         (deleteOne http "indexes" ("idx-" ++ safeVerticalName pfx)).2 ++
         (deleteOne http "datasources" ("ds-" ++ safeVerticalName pfx)).2) := by
  simp only [delete_vertical, h, Bool.false_eq_true, if_false]

/-! ## C3: deleting a vertical whose skillset is missing -/

/-- C3 counterexample: deleting the `spo` vertical when the skillset does
not exist on the server (its DELETE answers 404) does not raise and marks
the other three resources deleted, but the report marks the missing
skillset `"deleted"` as well — not `skipped`/`not-found` as the spec's
scenario states. -/
theorem delete_vertical_missing_skillset_counterexample :
    (delete_vertical svcNoSkillset "spo").1 =
      .ok ("spo",
        { indexer := { name := "ix-spo", deleted := true, status := "deleted" }
          skillset := { name := "ss-spo", deleted := true, status := "deleted" }
          index := { name := "idx-spo", deleted := true, status := "deleted" }
          datasource := { name := "ds-spo", deleted := true, status := "deleted" } }) := by
  rfl

/-- C3 amended: as long as no DELETE raises a transport error,
`delete_vertical` does not raise regardless of which resources exist — a
404 error body is returned by `_make_request` without raising — and every
entry of the report, including a missing skillset's, reads `"deleted"`. -/
theorem delete_vertical_missing_tolerated (http : Req → HttpOutcome) (pfx : String)
    (hsafe : safeVerticalName pfx ≠ "")
    (hnet : ∀ r e, http r ≠ .netError e) :
    (delete_vertical http pfx).1 =
      .ok (safeVerticalName pfx,
        { indexer := { name := "ix-" ++ safeVerticalName pfx,
                       deleted := true, status := "deleted" }
          skillset := { name := "ss-" ++ safeVerticalName pfx,
                        deleted := true, status := "deleted" }
          index := { name := "idx-" ++ safeVerticalName pfx,
                     deleted := true, status := "deleted" }
          datasource := { name := "ds-" ++ safeVerticalName pfx,
                          deleted := true, status := "deleted" } }) := by
  have hif : (safeVerticalName pfx == "") = false := by simp [hsafe]
  rw [delete_vertical_expand http pfx hif]
  rw [deleteOne_no_net http "indexers" _ (fun e => hnet _ e),
    deleteOne_no_net http "skillsets" _ (fun e => hnet _ e),
    deleteOne_no_net http "indexes" _ (fun e => hnet _ e),
    deleteOne_no_net http "datasources" _ (fun e => hnet _ e)]

/-- Witness for the amended C3 at the concrete no-skillset server. -/
theorem delete_vertical_missing_tolerated_witness :
    (delete_vertical svcNoSkillset "spo-x").1 =
      .ok ("spo-x",
        { indexer := { name := "ix-spo-x", deleted := true, status := "deleted" }
          skillset := { name := "ss-spo-x", deleted := true, status := "deleted" }
          index := { name := "idx-spo-x", deleted := true, status := "deleted" }
          datasource := { name := "ds-spo-x", deleted := true, status := "deleted" } }) :=
  delete_vertical_missing_tolerated svcNoSkillset "spo-x" (by decide)
    (fun r e h => by
      unfold svcNoSkillset at h
      by_cases hp : (r.path == "skillsets/ss-spo") = true
      · rw [if_pos hp] at h; exact HttpOutcome.noConfusion h
      · rw [if_neg hp] at h; exact HttpOutcome.noConfusion h)

/-! ## C9: prefix sanitization -/

/-- C9: both vertical operations derive resource names from the sanitized
prefix (lower-cased, only alphanumerics and `-`, truncated to 48
characters); when the sanitized form is empty both raise
`SearchSetupError` before issuing any HTTP request, leaving the search
service untouched; otherwise the derived `ix-`/`ss-`/`idx-`/`ds-` names are
used in the requests. -/
theorem vertical_name_sanitization (http : Req → HttpOutcome)
    (storageValid : Bool) (pfx : String)
    (dsn ssn idxn ixn : Option String) (cj : Bool) :
    (safeVerticalName pfx = "" →
      delete_vertical http pfx = (.error "Prefix resulted in empty safe name", []) ∧
      create_vertical http storageValid pfx dsn ssn idxn ixn cj =
        (.error "Prefix resulted in empty safe name", [])) ∧
    (safeVerticalName pfx ≠ "" →
      (delete_vertical http pfx).2 =
        [{ method := "DELETE", path := "indexers/" ++ ("ix-" ++ safeVerticalName pfx) },
         { method := "DELETE", path := "skillsets/" ++ ("ss-" ++ safeVerticalName pfx) },
         { method := "DELETE", path := "indexes/" ++ ("idx-" ++ safeVerticalName pfx) },
         { method := "DELETE",
           path := "datasources/" ++ ("ds-" ++ safeVerticalName pfx) }]) ∧
    (safeVerticalName pfx).length ≤ 48 ∧
    (∀ c ∈ (safeVerticalName pfx).toList, c.isAlphanum = true ∨ c = '-') := by
  refine ⟨?_, ?_, ?_, ?_⟩
  · intro h
    have hif : (safeVerticalName pfx == "") = true := by simp [h]
    constructor
    · simp [delete_vertical, hif]
    · simp [create_vertical, hif]
  · intro h
    have hif : (safeVerticalName pfx == "") = false := by simp [h]
    rw [delete_vertical_expand http pfx hif]
    rw [show ((.ok (safeVerticalName pfx,
        { indexer := (deleteOne http "indexers" ("ix-" ++ safeVerticalName pfx)).1
          skillset := (deleteOne http "skillsets" ("ss-" ++ safeVerticalName pfx)).1
          index := (deleteOne http "indexes" ("idx-" ++ safeVerticalName pfx)).1
          datasource :=
            (deleteOne http "datasources" ("ds-" ++ safeVerticalName pfx)).1 }),
       (deleteOne http "indexers" ("ix-" ++ safeVerticalName pfx)).2 ++
         (deleteOne http "skillsets" ("ss-" ++ safeVerticalName pfx)).2 ++
         (deleteOne http "indexes" ("idx-" ++ safeVerticalName pfx)).2 ++
         (deleteOne http "datasources" ("ds-" ++ safeVerticalName pfx)).2) :
        Except String (String × DeleteReport) × List Req).2 =
      (deleteOne http "indexers" ("ix-" ++ safeVerticalName pfx)).2 ++
        (deleteOne http "skillsets" ("ss-" ++ safeVerticalName pfx)).2 ++
        (deleteOne http "indexes" ("idx-" ++ safeVerticalName pfx)).2 ++
        (deleteOne http "datasources" ("ds-" ++ safeVerticalName pfx)).2 from rfl]
    rw [deleteOne_trace, deleteOne_trace, deleteOne_trace, deleteOne_trace]
    rfl
  · show (String.mk (((pyToLower pfx).toList.filter
      (fun c => c.isAlphanum || c == '-')).take 48)).length ≤ 48
    have hlen : (String.mk (((pyToLower pfx).toList.filter
        (fun c => c.isAlphanum || c == '-')).take 48)).length =
        (((pyToLower pfx).toList.filter
          (fun c => c.isAlphanum || c == '-')).take 48).length := rfl
    rw [hlen, List.length_take]
    exact min_le_left _ _
  · intro c hc
    have hmem : c ∈ (pyToLower pfx).toList.filter (fun c => c.isAlphanum || c == '-') :=
      List.take_subset _ _ hc
    have hp := (List.mem_filter.mp hmem).2
    rcases Bool.or_eq_true_iff.mp hp with h1 | h2
    · exact Or.inl h1
    · exact Or.inr (by simpa using h2)

/-- Witness for C9: an all-punctuation prefix raises with no request
issued; an upper-case prefix is lower-cased into the four derived resource
names. -/
theorem vertical_name_sanitization_witness :
    (delete_vertical svcNoSkillset "!!!" =
        (.error "Prefix resulted in empty safe name", []) ∧
      create_vertical svcNoSkillset true "!!!" none none none none false =
        (.error "Prefix resulted in empty safe name", [])) ∧
    (delete_vertical svcNoSkillset "SPO").2 =
      [{ method := "DELETE", path := "indexers/ix-spo" },
       { method := "DELETE", path := "skillsets/ss-spo" },
       { method := "DELETE", path := "indexes/idx-spo" },
       { method := "DELETE", path := "datasources/ds-spo" }] :=
  ⟨(vertical_name_sanitization svcNoSkillset true "!!!"
      none none none none false).1 (by decide),
   (vertical_name_sanitization svcNoSkillset true "SPO"
      none none none none false).2.1 (by decide)⟩
